import Mathlib

/- Verification model of the betting-ai-system core:
   * the pure scoring library            src/utils/bet_scoring.py
   * the top-3 selection engine          src/recommendation/top3_selector.py
   * the ledger recording/grading logic  src/services/auto_bet_service.py

   Conventions of the shallow embedding:
   * Python floats are modelled as rationals (ℚ);
   * datetimes are integer Unix seconds (ℤ); `timedelta(hours=h)` is `h * 3600`;
   * SQL NULL columns are `Option`;
   * Python `round` (banker's rounding) is `roundHalfEven` / `pyRound2`;
   * `int(s)` applied to a score string that may fail to parse is modelled by
     storing the parse result as an `Option ℤ` in `ScoreEntry.score`;
   * a SQLAlchemy table is a `List` of rows; a query is a pure function of it. -/

namespace BettingAI

/-- Twelve hours in seconds: the dedup window of
`_recommendation_already_recorded` (auto_bet_service.py line 82). -/
def HOURS12 : ℤ := 12 * 3600

/-- Forty-eight hours in seconds: the grading expiry bound
(auto_bet_service.py line 217). -/
def HOURS48 : ℤ := 48 * 3600

/-- Python's `round(q)` to the nearest integer, ties to the even integer
(banker's rounding), on rationals. -/
def roundHalfEven (q : ℚ) : ℤ :=
  if q - ⌊q⌋ < 1/2 then ⌊q⌋
  else if q - ⌊q⌋ > 1/2 then ⌊q⌋ + 1
  else if ⌊q⌋ % 2 = 0 then ⌊q⌋ else ⌊q⌋ + 1

/-- Python's `round(q, 2)`: round to the nearest hundredth, ties to even. -/
def pyRound2 (q : ℚ) : ℚ := (roundHalfEven (q * 100) : ℚ) / 100

/- ──────────────────────────  Scorer (bet_scoring.py)  ────────────────────── -/

/-- Embedding of `bet_scoring.calculate_unit_size` (lines 9-53): 0 below the
0.70 confidence floor, otherwise the unit formula clamped to
[0.5, max_units] and rounded to the nearest 0.5. -/
def calculate_unit_size (confidence expected_value risk_score max_units : ℚ) : ℚ :=
  if confidence < 7/10 then 0
  else
    let edge := expected_value - 1
    let risk_penalty := risk_score * (1/2)
    let base_units := (confidence - 13/20) * 10 + edge * 5 + (1 - risk_score) * 2 - risk_penalty
    let units := max (1/2) (min max_units base_units)
    (roundHalfEven (units * 2) : ℚ) / 2

/-- Embedding of `bet_scoring.calculate_ev_with_vig` (lines 56-81). -/
def calculate_ev_with_vig (win_probability decimal_odds vig_rate : ℚ) : ℚ :=
  let effective_payout := decimal_odds * (1 - vig_rate)
  let ev := win_probability * effective_payout - (1 - win_probability)
  1 + ev

/-- Which branch of `inverse_filter_bad_bets` produced the verdict.  The
source returns a formatted reason string; only its identity matters here, so
the five rejection messages and the acceptance message are modelled as tags. -/
inductive FilterReason
  | lowConfidence
  | lowEdge
  | highRisk
  | overconfidence
  | falseSecurity
  | passes
deriving DecidableEq, Repr

/-- Embedding of `bet_scoring.inverse_filter_bad_bets` (lines 84-132): the
five rejection checks in source order, else accept. -/
def inverse_filter_bad_bets (confidence expected_value risk_score
    min_confidence min_ev max_risk : ℚ) : Bool × FilterReason :=
  if confidence < min_confidence then (false, .lowConfidence)
  else if expected_value < min_ev then (false, .lowEdge)
  else if risk_score > max_risk then (false, .highRisk)
  else if confidence > 17/20 ∧ expected_value < 11/10 then (false, .overconfidence)
  else if risk_score < 3/10 ∧ expected_value < 28/25 then (false, .falseSecurity)
  else (true, .passes)

/-- Embedding of `bet_scoring.calculate_composite_score` (lines 174-211) with
the weights dict passed as three explicit weights. -/
def calculate_composite_score (confidence expected_value risk_score
    w_confidence w_ev w_risk_adjusted : ℚ) : ℚ :=
  let confidence_score := confidence
  let ev_score := (expected_value - 1) * 5
  let risk_adjusted_score := (1 - risk_score) * expected_value
  w_confidence * confidence_score + w_ev * ev_score + w_risk_adjusted * risk_adjusted_score

/-- Embedding of `bet_scoring.kelly_criterion` (lines 214-243).  The source
divides by `b = decimal_odds - 1` with no guard; at `b = 0` Python raises
`ZeroDivisionError`, modelled as `none`. -/
def kelly_criterion (win_probability decimal_odds fraction : ℚ) : Option ℚ :=
  let b := decimal_odds - 1
  if b = 0 then none
  else
    let p := win_probability
    let q := 1 - p
    let kelly := (b * p - q) / b
    some (max 0 (min (1/5) (kelly * fraction)))

/- ─────────────────────  Selector (top3_selector.py)  ─────────────────────── -/

/-- One candidate dict produced by `Top3Selector._create_recommendation`,
restricted to the fields the selection and recording paths read. -/
structure Candidate where
  event_id : ℕ
  selection : String
  recommended_odds : ℚ
  confidence_score : ℚ
  ev_with_vig : ℚ
  expected_value : ℚ
  risk_score : ℚ
  recommended_stake : ℚ
  composite_score : ℚ
  rank : ℕ
deriving DecidableEq, Repr

/-- Descending composite-score order: the comparator of
`sorted(..., key=composite_score, reverse=True)` in
`_rank_and_select_top3` (top3_selector.py line 574). -/
def scoreGe (a b : Candidate) : Prop := b.composite_score ≤ a.composite_score

instance : DecidableRel scoreGe := fun a b =>
  inferInstanceAs (Decidable (b.composite_score ≤ a.composite_score))

instance : IsTotal Candidate scoreGe :=
  ⟨fun a b => le_total b.composite_score a.composite_score⟩

instance : IsTrans Candidate scoreGe :=
  ⟨fun _ _ _ h1 h2 => le_trans h2 h1⟩

/-- The diversity walk of `_rank_and_select_top3` (top3_selector.py lines
581-590): scan the ranked list, skip event ids already seen, stop once
`remaining` picks have been made (the `len(top3) >= 3: break`). -/
def selectDiverse : List Candidate → List ℕ → ℕ → List Candidate
  | [], _, _ => []
  | c :: rest, seen, remaining =>
    if remaining = 0 then []
    else if c.event_id ∈ seen then selectDiverse rest seen remaining
    else c :: selectDiverse rest (c.event_id :: seen) (remaining - 1)

/-- The rank-assignment loop of `_rank_and_select_top3` (lines 593-594):
`rec['rank'] = i` for `i = 1, 2, ...` in final order. -/
def assignRanks : ℕ → List Candidate → List Candidate
  | _, [] => []
  | i, c :: rest => { c with rank := i } :: assignRanks (i + 1) rest

/-- The composite-scoring pass of `_rank_and_select_top3` (lines 559-571):
store `calculate_composite_score(confidence_score/100, ev_with_vig,
risk_score, weights)` on the candidate. -/
def scoreCandidate (w_confidence w_ev w_risk_adjusted : ℚ) (rec : Candidate) : Candidate :=
  let s := calculate_composite_score (rec.confidence_score / 100) rec.ev_with_vig
    rec.risk_score w_confidence w_ev w_risk_adjusted
  { rec with composite_score := s }

/-- Embedding of `Top3Selector._rank_and_select_top3` (top3_selector.py lines
542-596): early return on an empty input, composite scoring, a stable
descending sort (Python `sorted` is stable; insertion sort matches it),
the diversity walk capped at 3, and rank assignment 1..N. -/
def rank_and_select_top3 (w_confidence w_ev w_risk_adjusted : ℚ)
    (recommendations : List Candidate) : List Candidate :=
  if recommendations.isEmpty then []
  else
    let scored := recommendations.map (scoreCandidate w_confidence w_ev w_risk_adjusted)
    let ranked := List.insertionSort scoreGe scored
    assignRanks 1 (selectDiverse ranked [] 3)

/-- The Kelly fraction as computed inside `Top3Selector._calculate_stake`
(top3_selector.py line 411): guarded by `b > 0`, falling back to 0. -/
def stake_kelly_fraction (probability odds : ℚ) : ℚ :=
  let b := odds - 1
  if b > 0 then (b * probability - (1 - probability)) / b else 0

/-- The stake `_calculate_stake` derives before the max-percentage cap and
the [min_stake, max_stake] clamp are applied (top3_selector.py lines
411-421): quarter Kelly, scaled by confidence, against the fixed
$10,000 default bankroll. -/
def calculate_stake_unbounded (probability odds confidence : ℚ) : ℚ :=
  10000 * (stake_kelly_fraction probability odds * (1/4) * confidence)

/-- Result pair of `Top3Selector._calculate_stake`. -/
structure StakeInfo where
  amount : ℚ
  percentage : ℚ
deriving DecidableEq, Repr

/-- Embedding of `Top3Selector._calculate_stake` (top3_selector.py lines
383-429) with the three config values passed explicitly. -/
def calculate_stake (probability odds confidence
    max_stake_pct min_stake max_stake : ℚ) : StakeInfo :=
  let fractional_kelly := stake_kelly_fraction probability odds * (1/4)
  let adjusted_stake_pct := min (fractional_kelly * confidence) max_stake_pct
  let stake_amount := max min_stake (min (10000 * adjusted_stake_pct) max_stake)
  ⟨pyRound2 stake_amount, pyRound2 (adjusted_stake_pct * 100)⟩

/- ─────────────────  Ledger (auto_bet_service.py, models.py)  ─────────────── -/

/-- An `events` row (models.py lines 25-49), restricted to the columns the
core reads.  `start_time` is nullable at the ORM level and the grading code
guards it with `if event.start_time`. -/
structure Event where
  id : ℕ
  external_id : Option String
  name : String
  home_team : Option String
  away_team : Option String
  start_time : Option ℤ
  status : String
deriving DecidableEq, Repr

/-- A `recommendations` row (models.py lines 99-126), restricted to the
columns the recording and grading code reads or writes. -/
structure Recommendation where
  event_id : ℕ
  selection : String
  recommended_odds : Option ℚ
  recommended_stake : Option ℚ
  status : String
  actual_outcome : Option String
  actual_return : Option ℚ
  created_at : ℤ
  updated_at : ℤ
deriving DecidableEq, Repr

/-- The `Recommendation(...)` row built when a candidate is persisted, both
by `Top3Selector._save_recommendations` (top3_selector.py lines 612-625) and
by `record_top3_bets` (auto_bet_service.py lines 124-137): status `pending`,
`created_at`/`updated_at` defaulted to now (models.py lines 118-119). -/
def mkLedgerRow (now : ℤ) (c : Candidate) : Recommendation :=
  { event_id := c.event_id
    selection := c.selection
    recommended_odds := some c.recommended_odds
    recommended_stake := some c.recommended_stake
    status := "pending"
    actual_outcome := none
    actual_return := none
    created_at := now
    updated_at := now }

/-- Embedding of `Top3Selector._save_recommendations` (top3_selector.py lines
598-633): every selected candidate is inserted unconditionally — there is no
dedup check here — and committed. -/
def save_recommendations (top3 : List Candidate) (now : ℤ)
    (ledger : List Recommendation) : List Recommendation :=
  ledger ++ top3.map (mkLedgerRow now)

/-- Embedding of `_recommendation_already_recorded` (auto_bet_service.py
lines 80-92): a row for the same (event_id, selection) with
`created_at >= now - 12h` exists. -/
def recommendation_already_recorded (ledger : List Recommendation) (now : ℤ)
    (event_id : ℕ) (selection : String) : Bool :=
  ledger.any fun r =>
    r.event_id == event_id && r.selection == selection &&
      decide (now - HOURS12 ≤ r.created_at)

/-- Embedding of `record_top3_bets` (auto_bet_service.py lines 95-155).  It
first runs `Top3Selector.get_top3_bets`, whose tail is the unconditional
`_save_recommendations` commit of the selector output; it then walks the
same output, skipping every candidate whose (event_id, selection) already
appears within 12 hours — which now always includes the row the selector
itself just saved — and inserting a ledger row otherwise. -/
def record_top3_bets (selector_output : List Candidate) (now : ℤ)
    (ledger : List Recommendation) : List Recommendation :=
  let after_save := save_recommendations selector_output now ledger
  selector_output.foldl
    (fun l c =>
      if recommendation_already_recorded l now c.event_id c.selection then l
      else l ++ [mkLedgerRow now c])
    after_save

/-- One entry of the `scores` array of a completed event from the score
provider.  `score` is the result of Python's `int(entry["score"])`, `none`
when the conversion raises (the `except` of `_determine_winner`). -/
structure ScoreEntry where
  name : String
  score : Option ℤ
deriving DecidableEq, Repr

/-- Embedding of `_determine_winner` (auto_bet_service.py lines 273-298):
needs at least two parseable scores; higher score names the winner, equal
scores give "Draw", anything malformed gives no winner. -/
def determine_winner (scores : List ScoreEntry) : Option String :=
  match scores with
  | a :: b :: _ =>
    match a.score, b.score with
    | some a_score, some b_score =>
      if a_score > b_score then some a.name
      else if b_score > a_score then some b.name
      else some "Draw"
    | _, _ => none
  | _ => none

/-- Python's `str.lower()`, as a structural map over the characters (Lean's
own `String.toLower` is extensionally the same but is compiled in a way the
kernel cannot evaluate). -/
def pyLower (s : String) : String := ⟨s.data.map Char.toLower⟩

/-- Python's `str.strip()`: whitespace dropped from both ends. -/
def pyStrip (s : String) : String :=
  ⟨((s.data.dropWhile Char.isWhitespace).reverse.dropWhile Char.isWhitespace).reverse⟩

/-- Python's substring test `needle in haystack` on strings. -/
def strContains (haystack needle : String) : Bool :=
  decide (needle.data <:+: haystack.data)

/-- Embedding of `_selection_matches_winner` (auto_bet_service.py lines
301-324): direct name match, home/away keyword match against the event's
team names, draw match, then substring match as a last resort. -/
def selection_matches_winner (selection winner : String) (event : Event) : Bool :=
  let sel := pyStrip (pyLower selection)
  let win := pyStrip (pyLower winner)
  let home := pyLower (event.home_team.getD "")
  let away := pyLower (event.away_team.getD "")
  if sel == win then true
  else if sel == "home" || sel == home then win == home
  else if sel == "away" || sel == away then win == away
  else if sel == "draw" && win == "draw" then true
  else if strContains sel win || strContains win sel then true
  else false

/-- The `completed_events` dict of `grade_pending_bets` (auto_bet_service.py
lines 176-186), keyed by the provider event id and holding the `scores`
array; looked up with the event's nullable `external_id`. -/
def lookupCompleted (completed_events : List (String × List ScoreEntry)) :
    Option String → Option (List ScoreEntry)
  | none => none
  | some k => (completed_events.find? fun p => p.1 == k).map Prod.snd

/-- The not-yet-gradeable test `event.start_time and event.start_time >
datetime.utcnow()` (auto_bet_service.py line 207). -/
def start_time_future : Option ℤ → ℤ → Bool
  | some t, now => decide (t > now)
  | none, _ => false

/-- The expiry test `event.start_time and (datetime.utcnow() -
event.start_time) > timedelta(hours=48)` (auto_bet_service.py line 217). -/
def start_time_expired : Option ℤ → ℤ → Bool
  | some t, now => decide (now - t > HOURS48)
  | none, _ => false

/-- Grading of one pending recommendation: the loop body of
`grade_pending_bets` (auto_bet_service.py lines 201-258).  The `event.status
= "finished"` mutation is omitted from the result because no modelled
operation reads it.  Returns the updated row. -/
def gradeOne (completed_events : List (String × List ScoreEntry))
    (events : List Event) (now : ℤ) (r : Recommendation) : Recommendation :=
  match events.find? (fun e => e.id == r.event_id) with
  | none => r
  | some event =>
    if start_time_future event.start_time now then r
    else
      match lookupCompleted completed_events event.external_id with
      | none =>
        if start_time_expired event.start_time now then
          { r with status := "void"
                   actual_outcome := some "expired - no result found"
                   actual_return := some 0
                   updated_at := now }
        else r
      | some score_data =>
        match determine_winner score_data with
        | none =>
          { r with status := "void"
                   actual_outcome := some "no winner determined"
                   actual_return := some 0
                   updated_at := now }
        | some winner =>
          let ret := pyRound2 (r.recommended_stake.getD 0 * r.recommended_odds.getD 1)
          if selection_matches_winner r.selection winner event then
            { r with status := "won"
                     actual_outcome := some winner
                     actual_return := some ret
                     updated_at := now }
          else
            { r with status := "lost"
                     actual_outcome := some winner
                     actual_return := some 0
                     updated_at := now }

/-- Embedding of the ledger pass of `grade_pending_bets` (auto_bet_service.py
lines 194-264): the query selects exactly the rows with status `pending` and
only those are mutated; every other row is untouched. -/
def grade_pending_bets (completed_events : List (String × List ScoreEntry))
    (events : List Event) (now : ℤ) (ledger : List Recommendation) : List Recommendation :=
  ledger.map fun r =>
    if r.status = "pending" then gradeOne completed_events events now r else r

/-- Aggregate report of `get_ledger_summary` (auto_bet_service.py lines
368-395). -/
structure LedgerSummary where
  total_bets : ℕ
  won : ℕ
  lost : ℕ
  pending : ℕ
  voided : ℕ
  win_rate : ℚ
  total_staked : ℚ
  total_returned : ℚ
  net_profit : ℚ
  roi : ℚ
deriving DecidableEq, Repr

/-- Embedding of `get_ledger_summary` (auto_bet_service.py lines 368-395): a
pure fold over the ledger; it reads rows and never produces a new ledger. -/
def get_ledger_summary (all_recs : List Recommendation) : LedgerSummary :=
  let won := (all_recs.filter fun r => r.status == "won").length
  let lost := (all_recs.filter fun r => r.status == "lost").length
  let pending := (all_recs.filter fun r => r.status == "pending").length
  let voided := (all_recs.filter fun r => r.status == "void").length
  let graded := all_recs.filter fun r => r.status == "won" || r.status == "lost"
  let total_staked := (graded.map fun r => r.recommended_stake.getD 0).sum
  let total_returned := (graded.map fun r => r.actual_return.getD 0).sum
  let net_profit := pyRound2 (total_returned - total_staked)
  { total_bets := all_recs.length
    won := won
    lost := lost
    pending := pending
    voided := voided
    win_rate := if won + lost > 0 then pyRound2 ((won : ℚ) / (won + lost) * 100) else 0
    total_staked := pyRound2 total_staked
    total_returned := pyRound2 total_returned
    net_profit := net_profit
    roi := if total_staked > 0 then pyRound2 (net_profit / total_staked * 100) else 0 }

/- ─────────────────────  Concrete inputs for the theorems  ────────────────── -/

/-- Number of pending ledger rows for one (event_id, selection) pair. -/
def countPendingFor (event_id : ℕ) (selection : String)
    (ledger : List Recommendation) : ℕ :=
  (ledger.filter fun r =>
    r.event_id == event_id && r.selection == selection && r.status == "pending").length

/-- A concrete selector output: event 1, selection "home". -/
def c1Candidate : Candidate :=
  { event_id := 1, selection := "home", recommended_odds := 2,
    confidence_score := 75, ev_with_vig := 23/20, expected_value := 3/20,
    risk_score := 3/10, recommended_stake := 50, composite_score := 0, rank := 0 }

/-- A concrete event whose provider id is "ev1", TeamA at home. -/
def cexEvent : Event :=
  { id := 1, external_id := some "ev1", name := "TeamA vs TeamB",
    home_team := some "TeamA", away_team := some "TeamB",
    start_time := some 0, status := "upcoming" }

/-- A completed 3-1 score line: TeamA 3, TeamB 1. -/
def cexScores : List ScoreEntry := [⟨"TeamA", some 3⟩, ⟨"TeamB", some 1⟩]

/-- A concrete pending recommendation on event 1, selection "home", stake 1,
odds 1.111 (a product with sub-cent precision). -/
def cexRecommendation : Recommendation :=
  { event_id := 1, selection := "home", recommended_odds := some (1111/1000),
    recommended_stake := some 1, status := "pending", actual_outcome := none,
    actual_return := none, created_at := 0, updated_at := 0 }

/-- A concrete pending recommendation on event 1 with round numbers: stake 10,
odds 2. -/
def wonRecommendation : Recommendation :=
  { event_id := 1, selection := "home", recommended_odds := some 2,
    recommended_stake := some 10, status := "pending", actual_outcome := none,
    actual_return := none, created_at := 0, updated_at := 0 }

/-- A concrete pending recommendation on event 1, selection "away". -/
def lostRecommendation : Recommendation :=
  { event_id := 1, selection := "away", recommended_odds := some 2,
    recommended_stake := some 10, status := "pending", actual_outcome := none,
    actual_return := none, created_at := 0, updated_at := 0 }

/- ─────────────────────────  Selection lemmas (C5)  ───────────────────────── -/

lemma selectDiverse_sublist :
    ∀ (l : List Candidate) (seen : List ℕ) (rem : ℕ),
      List.Sublist (selectDiverse l seen rem) l := by
  intro l
  induction l with
  | nil => intro seen rem; simp [selectDiverse]
  | cons c rest ih =>
    intro seen rem
    simp only [selectDiverse]
    split
    · exact List.nil_sublist _
    · split
      · exact List.Sublist.cons c (ih seen rem)
      · exact List.Sublist.cons₂ c (ih _ _)

lemma selectDiverse_length_le :
    ∀ (l : List Candidate) (seen : List ℕ) (rem : ℕ),
      (selectDiverse l seen rem).length ≤ rem := by
  intro l
  induction l with
  | nil => intro seen rem; simp [selectDiverse]
  | cons c rest ih =>
    intro seen rem
    simp only [selectDiverse]
    split
    · simp
    · split
      · exact ih seen rem
      · rename_i hrem hmem
        simp only [List.length_cons]
        have h := ih (c.event_id :: seen) (rem - 1)
        omega

lemma selectDiverse_event_not_seen :
    ∀ (l : List Candidate) (seen : List ℕ) (rem : ℕ) (x : ℕ),
      x ∈ (selectDiverse l seen rem).map (fun c => c.event_id) → x ∉ seen := by
  intro l
  induction l with
  | nil => intro seen rem x hx; simp [selectDiverse] at hx
  | cons c rest ih =>
    intro seen rem x hx
    simp only [selectDiverse] at hx
    split at hx
    · simp at hx
    · split at hx
      · exact ih seen rem x hx
      · rename_i hrem hmem
        simp only [List.map_cons, List.mem_cons] at hx
        rcases hx with rfl | hx
        · exact hmem
        · intro hseen
          exact ih _ _ x hx (List.mem_cons_of_mem _ hseen)

lemma selectDiverse_nodup :
    ∀ (l : List Candidate) (seen : List ℕ) (rem : ℕ),
      ((selectDiverse l seen rem).map (fun c => c.event_id)).Nodup := by
  intro l
  induction l with
  | nil => intro seen rem; simp [selectDiverse]
  | cons c rest ih =>
    intro seen rem
    simp only [selectDiverse]
    split
    · simp
    · split
      · exact ih seen rem
      · simp only [List.map_cons, List.nodup_cons]
        refine ⟨fun hx => ?_, ih _ _⟩
        exact selectDiverse_event_not_seen _ _ _ _ hx (List.mem_cons_self _ _)

lemma assignRanks_map_rank :
    ∀ (i : ℕ) (l : List Candidate),
      (assignRanks i l).map (fun c => c.rank) = List.range' i l.length := by
  intro i l
  induction l generalizing i with
  | nil => simp [assignRanks]
  | cons c rest ih => simp [assignRanks, List.range'_succ, ih]

lemma assignRanks_map_score :
    ∀ (i : ℕ) (l : List Candidate),
      (assignRanks i l).map (fun c => c.composite_score) =
        l.map (fun c => c.composite_score) := by
  intro i l
  induction l generalizing i with
  | nil => rfl
  | cons c rest ih => simp [assignRanks, ih]

lemma assignRanks_map_eid :
    ∀ (i : ℕ) (l : List Candidate),
      (assignRanks i l).map (fun c => c.event_id) = l.map (fun c => c.event_id) := by
  intro i l
  induction l generalizing i with
  | nil => rfl
  | cons c rest ih => simp [assignRanks, ih]

lemma assignRanks_length :
    ∀ (i : ℕ) (l : List Candidate), (assignRanks i l).length = l.length := by
  intro i l
  induction l generalizing i with
  | nil => rfl
  | cons c rest ih => simp [assignRanks, ih]

lemma pairwise_score_of_pairwise_scoreGe {l : List Candidate}
    (h : List.Pairwise scoreGe l) :
    List.Pairwise (fun a b : ℚ => b ≤ a) (l.map (fun c => c.composite_score)) := by
  rw [List.pairwise_map]
  exact h

/-- C5: the rank-and-select step never returns two entries with the same
event_id, returns at most 3 entries, returns them ordered by composite_score
descending, and assigns ranks 1..N in final order. -/
theorem rank_and_select_top3_properties :
    ∀ (w_confidence w_ev w_risk_adjusted : ℚ) (recommendations : List Candidate),
      (((rank_and_select_top3 w_confidence w_ev w_risk_adjusted recommendations).map
        (fun c => c.event_id)).Nodup) ∧
      (rank_and_select_top3 w_confidence w_ev w_risk_adjusted recommendations).length ≤ 3 ∧
      List.Pairwise (fun a b : ℚ => b ≤ a)
        ((rank_and_select_top3 w_confidence w_ev w_risk_adjusted recommendations).map
          (fun c => c.composite_score)) ∧
      (rank_and_select_top3 w_confidence w_ev w_risk_adjusted recommendations).map
          (fun c => c.rank) =
        List.range' 1
          (rank_and_select_top3 w_confidence w_ev w_risk_adjusted recommendations).length := by
  intro wc wev wr recs
  by_cases hempty : recs.isEmpty
  · simp [rank_and_select_top3, hempty]
  · have hdef : rank_and_select_top3 wc wev wr recs =
      assignRanks 1 (selectDiverse
        (List.insertionSort scoreGe (recs.map (scoreCandidate wc wev wr))) [] 3) := by
      simp [rank_and_select_top3, hempty]
    rw [hdef]
    set ranked := List.insertionSort scoreGe (recs.map (scoreCandidate wc wev wr)) with hranked
    have hsorted : List.Pairwise scoreGe ranked :=
      List.sorted_insertionSort scoreGe (recs.map (scoreCandidate wc wev wr))
    have hsub : List.Sublist (selectDiverse ranked [] 3) ranked := selectDiverse_sublist _ _ _
    refine ⟨?_, ?_, ?_, ?_⟩
    · rw [assignRanks_map_eid]
      exact selectDiverse_nodup _ _ _
    · rw [assignRanks_length]
      exact selectDiverse_length_le _ _ _
    · rw [assignRanks_map_score]
      exact pairwise_score_of_pairwise_scoreGe (hsorted.sublist hsub)
    · rw [assignRanks_map_rank, assignRanks_length]

/- ───────────────────────────  Scorer theorems  ───────────────────────────── -/

/-- C6: calculate_unit_size matches its reference definition — it returns 0
for every confidence below 0.70, and otherwise the round-to-nearest-0.5 of
the clamp to [0.5, max_units] of
(confidence-0.65)*10 + (ev-1)*5 + (1-risk)*2 - risk*0.5; in particular
unit_size(confidence=0.75, expected_value=1.15, risk_score=0.3) = 3.0. -/
theorem unit_size_matches_reference :
    (∀ confidence expected_value risk_score max_units : ℚ,
      confidence < 7/10 →
      calculate_unit_size confidence expected_value risk_score max_units = 0) ∧
    (∀ confidence expected_value risk_score max_units : ℚ,
      ¬ confidence < 7/10 →
      calculate_unit_size confidence expected_value risk_score max_units =
        (roundHalfEven (max (1/2) (min max_units
          ((confidence - 13/20) * 10 + (expected_value - 1) * 5
            + (1 - risk_score) * 2 - risk_score * (1/2))) * 2) : ℚ) / 2) ∧
    calculate_unit_size (3/4) (23/20) (3/10) 5 = 3 := by
  refine ⟨fun c ev r mu h => ?_, fun c ev r mu h => ?_, ?_⟩
  · simp [calculate_unit_size, h]
  · simp [calculate_unit_size, h]
  · norm_num [calculate_unit_size, roundHalfEven, max_def, min_def]

/-- Witness for the unit-size theorem: the low-confidence branch at
confidence 0.60 and the formula branch at the spec's example input. -/
theorem unit_size_matches_reference_witness :
    calculate_unit_size (3/5) (23/20) (3/10) 5 = 0 ∧
    calculate_unit_size (3/4) (23/20) (3/10) 5 =
      (roundHalfEven (max (1/2) (min 5
        ((3/4 - 13/20) * 10 + (23/20 - 1) * 5
          + (1 - 3/10) * 2 - (3/10) * (1/2))) * 2) : ℚ) / 2 :=
  ⟨unit_size_matches_reference.1 (3/5) (23/20) (3/10) 5 (by norm_num),
   unit_size_matches_reference.2.1 (3/4) (23/20) (3/10) 5 (by norm_num)⟩

/-- C7: inverse_filter_bad_bets rejects in the stated order — low confidence,
then low edge, then high risk, then the overconfidence pattern
(confidence > 0.85 with EV < 1.10), then the false-security pattern
(risk < 0.3 with EV < 1.12) — and accepts in all remaining cases; and for
every min_confidence ≤ 0.90, min_ev ≤ 1.05 and max_risk at or above the
given risk, confidence 0.90 with EV 1.05 is rejected via overconfidence. -/
theorem inverse_filter_order_and_overconfidence :
    (∀ c ev r mc me mr : ℚ,
      (c < mc → inverse_filter_bad_bets c ev r mc me mr = (false, .lowConfidence)) ∧
      (¬ c < mc → ev < me →
        inverse_filter_bad_bets c ev r mc me mr = (false, .lowEdge)) ∧
      (¬ c < mc → ¬ ev < me → r > mr →
        inverse_filter_bad_bets c ev r mc me mr = (false, .highRisk)) ∧
      (¬ c < mc → ¬ ev < me → ¬ r > mr → c > 17/20 ∧ ev < 11/10 →
        inverse_filter_bad_bets c ev r mc me mr = (false, .overconfidence)) ∧
      (¬ c < mc → ¬ ev < me → ¬ r > mr → ¬ (c > 17/20 ∧ ev < 11/10) →
        r < 3/10 ∧ ev < 28/25 →
        inverse_filter_bad_bets c ev r mc me mr = (false, .falseSecurity)) ∧
      (¬ c < mc → ¬ ev < me → ¬ r > mr → ¬ (c > 17/20 ∧ ev < 11/10) →
        ¬ (r < 3/10 ∧ ev < 28/25) →
        inverse_filter_bad_bets c ev r mc me mr = (true, .passes))) ∧
    (∀ mc me mr r : ℚ, mc ≤ 9/10 → me ≤ 21/20 → r ≤ mr →
      inverse_filter_bad_bets (9/10) (21/20) r mc me mr = (false, .overconfidence)) := by
  constructor
  · intro c ev r mc me mr
    refine ⟨fun h1 => ?_, fun h1 h2 => ?_, fun h1 h2 h3 => ?_,
      fun h1 h2 h3 h4 => ?_, fun h1 h2 h3 h4 h5 => ?_, fun h1 h2 h3 h4 h5 => ?_⟩
    · simp only [inverse_filter_bad_bets, if_pos h1]
    · simp only [inverse_filter_bad_bets, if_neg h1, if_pos h2]
    · simp only [inverse_filter_bad_bets, if_neg h1, if_neg h2, if_pos h3]
    · simp only [inverse_filter_bad_bets, if_neg h1, if_neg h2, if_neg h3, if_pos h4]
    · simp only [inverse_filter_bad_bets, if_neg h1, if_neg h2, if_neg h3, if_neg h4,
        if_pos h5]
    · simp only [inverse_filter_bad_bets, if_neg h1, if_neg h2, if_neg h3, if_neg h4,
        if_neg h5]
  · intro mc me mr r h1 h2 h3
    have hc : ¬ (9/10 : ℚ) < mc := not_lt.2 h1
    have he : ¬ (21/20 : ℚ) < me := not_lt.2 h2
    have hr : ¬ r > mr := not_lt.2 h3
    simp only [inverse_filter_bad_bets, if_neg hc, if_neg he, if_neg hr,
      if_pos (show (9:ℚ)/10 > 17/20 ∧ (21:ℚ)/20 < 11/10 by norm_num)]

/-- Witness for the inverse-filter theorem: the overconfidence rejection at
the default thresholds (0.70, 1.05, 0.65) with risk 0.5, and the acceptance
branch at an unremarkable input. -/
theorem inverse_filter_order_and_overconfidence_witness :
    inverse_filter_bad_bets (9/10) (21/20) (1/2) (7/10) (21/20) (13/20) =
      (false, .overconfidence) ∧
    inverse_filter_bad_bets (3/4) (23/20) (1/2) (7/10) (27/25) (13/20) =
      (true, .passes) :=
  ⟨inverse_filter_order_and_overconfidence.2 (7/10) (21/20) (13/20) (1/2)
      (by norm_num) (by norm_num) (by norm_num),
   ((inverse_filter_order_and_overconfidence.1 (3/4) (23/20) (1/2) (7/10)
      (27/25) (13/20)).2.2.2.2.2 (by norm_num) (by norm_num) (by norm_num)
      (by norm_num) (by norm_num))⟩

/-- C8: kelly_criterion equals the fractional Kelly formula clamped to
[0, 0.20] whenever decimal_odds exceed 1; kelly_criterion(0.6, 2.0, 0.25)
is 0.05; and the selector's unbounded stake derivation (scaled by
confidence 0.6 against the $10,000 default bankroll) is $300. -/
theorem kelly_fraction_matches_reference :
    (∀ p d f : ℚ, 1 < d →
      kelly_criterion p d f =
        some (max 0 (min (1/5) (f * (((d - 1) * p - (1 - p)) / (d - 1)))))) ∧
    kelly_criterion (3/5) 2 (1/4) = some (1/20) ∧
    calculate_stake_unbounded (3/5) 2 (3/5) = 300 := by
  refine ⟨fun p d f hd => ?_, ?_, ?_⟩
  · have hb : d - 1 ≠ 0 := sub_ne_zero.2 (ne_of_gt (by linarith))
    simp only [kelly_criterion, if_neg hb]
    rw [mul_comm (((d - 1) * p - (1 - p)) / (d - 1)) f]
  · norm_num [kelly_criterion, max_def, min_def]
  · norm_num [calculate_stake_unbounded, stake_kelly_fraction]

/-- Witness for the Kelly theorem: the clamped formula evaluated at
probability 0.6, odds 2.0, quarter fraction. -/
theorem kelly_fraction_matches_reference_witness :
    kelly_criterion (3/5) 2 (1/4) =
      some (max 0 (min (1/5) ((1/4) * (((2 - 1) * (3/5) - (1 - 3/5)) / (2 - 1))))) :=
  kelly_fraction_matches_reference.1 (3/5) 2 (1/4) (by norm_num)

/-- C9: calculate_ev_with_vig computes the literal contracted formula
1 + (p·d·(1-v) - (1-p)); at (0.60, 2.0, 0.0476) it equals 1.74288, hence is
within 1e-4 of it. -/
theorem ev_with_vig_matches_reference :
    (∀ p d v : ℚ, calculate_ev_with_vig p d v = 1 + (p * d * (1 - v) - (1 - p))) ∧
    calculate_ev_with_vig (3/5) 2 (119/2500) = 174288/100000 ∧
    |calculate_ev_with_vig (3/5) 2 (119/2500) - 174288/100000| ≤ 1/10000 := by
  refine ⟨fun p d v => ?_, ?_, ?_⟩
  · simp only [calculate_ev_with_vig]
    ring
  · norm_num [calculate_ev_with_vig]
  · norm_num [calculate_ev_with_vig]

/-- C10: the Scorer's kelly_criterion is partial at decimal_odds = 1 — the
unguarded division by b = 0 raises, modelled as none — while the selector's
internal stake calculation guards b > 0 and falls back to a Kelly fraction
of 0; for every decimal_odds > 1 the result is defined and lies in
[0, 0.20]. -/
theorem kelly_division_guard :
    (∀ p f : ℚ, kelly_criterion p 1 f = none) ∧
    (∀ p : ℚ, stake_kelly_fraction p 1 = 0) ∧
    (∀ p d f : ℚ, 1 < d →
      (kelly_criterion p d f).isSome = true ∧
      0 ≤ (kelly_criterion p d f).getD 0 ∧
      (kelly_criterion p d f).getD 0 ≤ 1/5) := by
  refine ⟨fun p f => ?_, fun p => ?_, fun p d f hd => ?_⟩
  · simp [kelly_criterion]
  · simp [stake_kelly_fraction]
  · have hb : (d : ℚ) - 1 ≠ 0 := sub_ne_zero.2 (ne_of_gt (by linarith))
    simp only [kelly_criterion, if_neg hb, Option.isSome_some, Option.getD_some]
    exact ⟨trivial, le_max_left 0 _, max_le (by norm_num) (min_le_left _ _)⟩

/-- Witness for the Kelly partiality theorem: definedness and the [0, 0.20]
bounds at probability 0.6, odds 2.0, quarter fraction. -/
theorem kelly_division_guard_witness :
    (kelly_criterion (3/5) 2 (1/4)).isSome = true ∧
    0 ≤ (kelly_criterion (3/5) 2 (1/4)).getD 0 ∧
    (kelly_criterion (3/5) 2 (1/4)).getD 0 ≤ 1/5 :=
  kelly_division_guard.2.2 (3/5) 2 (1/4) (by norm_num)

/- ─────────────────────  Ledger and grading theorems  ─────────────────────── -/

/-- C2: a Recommendation's status is monotonic.  Grading maps the ledger
positionwise, leaving every row whose status is not pending — in particular
every won, lost or void row — exactly as it was, so only pending rows are
ever mutated; recording only appends new rows after the existing ledger.
The ledger queries (`get_ledger_summary`) are pure functions of the ledger
and produce no new ledger at all. -/
theorem recommendation_status_monotonic :
    (∀ (completed_events : List (String × List ScoreEntry)) (events : List Event)
        (now : ℤ) (ledger : List Recommendation),
      List.Forall₂ (fun r r2 => r.status ≠ "pending" → r2 = r) ledger
        (grade_pending_bets completed_events events now ledger)) ∧
    (∀ (selector_output : List Candidate) (now : ℤ) (ledger : List Recommendation),
      ∃ new_rows, record_top3_bets selector_output now ledger = ledger ++ new_rows) := by
  constructor
  · intro cev evs now ledger
    simp only [grade_pending_bets]
    rw [List.forall₂_map_right_iff]
    exact List.forall₂_same.2 fun r _ h => if_neg h
  · intro out now ledger
    have key : ∀ (cs : List Candidate) (l : List Recommendation),
        ∃ rows, cs.foldl (fun l c =>
          if recommendation_already_recorded l now c.event_id c.selection then l
          else l ++ [mkLedgerRow now c]) l = l ++ rows := by
      intro cs
      induction cs with
      | nil => intro l; exact ⟨[], by simp⟩
      | cons c rest ih =>
        intro l
        simp only [List.foldl_cons]
        by_cases h : recommendation_already_recorded l now c.event_id c.selection = true
        · rcases ih l with ⟨rows, hrows⟩
          exact ⟨rows, by rw [if_pos h, hrows]⟩
        · rcases ih (l ++ [mkLedgerRow now c]) with ⟨rows, hrows⟩
          refine ⟨mkLedgerRow now c :: rows, ?_⟩
          rw [if_neg h, hrows, List.append_assoc]
          rfl
    rcases key out (save_recommendations out now ledger) with ⟨rows, hrows⟩
    refine ⟨out.map (mkLedgerRow now) ++ rows, ?_⟩
    simp only [record_top3_bets]
    rw [hrows, save_recommendations, List.append_assoc]

/-- Matching lemma: with TeamA as the event's home team, the selection
"home" matches the winner "TeamA". -/
lemma selection_matches_home_teamA (e : Event) (h : e.home_team = some "TeamA") :
    selection_matches_winner "home" "TeamA" e = true := by
  simp only [selection_matches_winner, h]
  rfl

/-- C3 (amended): grading a pending recommendation whose event carries the
completed scores TeamA 3 - TeamB 1, with selection "home" and TeamA the home
team, sets status "won" and actual_return = round2(stake · odds) — the
product rounded to the nearest cent, as the source's `round(..., 2)` does;
and whenever the determined winner does not match the selection, status
becomes "lost" with actual_return = 0. -/
theorem grading_won_and_lost_amended :
    (∀ (completed_events : List (String × List ScoreEntry)) (events : List Event)
        (now : ℤ) (r : Recommendation) (e : Event),
      r.status = "pending" →
      events.find? (fun ev => ev.id == r.event_id) = some e →
      start_time_future e.start_time now = false →
      lookupCompleted completed_events e.external_id =
        some [⟨"TeamA", some 3⟩, ⟨"TeamB", some 1⟩] →
      r.selection = "home" →
      e.home_team = some "TeamA" →
      gradeOne completed_events events now r =
        { r with status := "won"
                 actual_outcome := some "TeamA"
                 actual_return := some (pyRound2 (r.recommended_stake.getD 0 * r.recommended_odds.getD 1))
                 updated_at := now }) ∧
    (∀ (completed_events : List (String × List ScoreEntry)) (events : List Event)
        (now : ℤ) (r : Recommendation) (e : Event)
        (score_data : List ScoreEntry) (winner : String),
      r.status = "pending" →
      events.find? (fun ev => ev.id == r.event_id) = some e →
      start_time_future e.start_time now = false →
      lookupCompleted completed_events e.external_id = some score_data →
      determine_winner score_data = some winner →
      selection_matches_winner r.selection winner e = false →
      gradeOne completed_events events now r =
        { r with status := "lost"
                 actual_outcome := some winner
                 actual_return := some 0
                 updated_at := now }) := by
  constructor
  · intro cev evs now r e hpend hfind hfut hlook hsel hhome
    have hwin : determine_winner [⟨"TeamA", some 3⟩, ⟨"TeamB", some 1⟩] =
        some "TeamA" := by decide
    have hmatch : selection_matches_winner r.selection "TeamA" e = true := by
      rw [hsel]
      exact selection_matches_home_teamA e hhome
    simp [gradeOne, hfind, hfut, hlook, hwin, hmatch]
  · intro cev evs now r e score_data winner hpend hfind hfut hlook hwin hmatch
    simp [gradeOne, hfind, hfut, hlook, hwin, hmatch]

/-- Witness for the amended grading theorem: the won branch at stake 10 and
odds 2 (return 20.0) and the lost branch for the selection "away". -/
theorem grading_won_and_lost_amended_witness :
    gradeOne [("ev1", cexScores)] [cexEvent] 3600 wonRecommendation =
      { wonRecommendation with
          status := "won"
          actual_outcome := some "TeamA"
          actual_return := some (pyRound2 ((10 : ℚ) * 2))
          updated_at := 3600 } ∧
    gradeOne [("ev1", cexScores)] [cexEvent] 3600 lostRecommendation =
      { lostRecommendation with
          status := "lost"
          actual_outcome := some "TeamA"
          actual_return := some 0
          updated_at := 3600 } :=
  ⟨grading_won_and_lost_amended.1 [("ev1", cexScores)] [cexEvent] 3600
      wonRecommendation cexEvent rfl rfl rfl rfl rfl rfl,
   grading_won_and_lost_amended.2 [("ev1", cexScores)] [cexEvent] 3600
      lostRecommendation cexEvent cexScores "TeamA" rfl rfl rfl rfl rfl rfl⟩

/-- C3 (counterexample to the claim as stated): at stake 1 and odds 1.111
the graded bet is won but the stored actual_return is the rounded 1.11, not
the exact product 1.111 = stake · odds. -/
theorem grading_return_rounding_cex :
    (gradeOne [("ev1", cexScores)] [cexEvent] 3600 cexRecommendation).status = "won" ∧
    (gradeOne [("ev1", cexScores)] [cexEvent] 3600 cexRecommendation).actual_return =
      some (111/100 : ℚ) ∧
    (gradeOne [("ev1", cexScores)] [cexEvent] 3600 cexRecommendation).actual_return ≠
      some ((1 : ℚ) * (1111/1000)) := by
  have h : gradeOne [("ev1", cexScores)] [cexEvent] 3600 cexRecommendation =
      { cexRecommendation with
          status := "won"
          actual_outcome := some "TeamA"
          actual_return := some (pyRound2 ((1 : ℚ) * (1111/1000)))
          updated_at := 3600 } := rfl
  rw [h]
  refine ⟨rfl, ?_, ?_⟩
  · norm_num [cexRecommendation, pyRound2, roundHalfEven]
  · norm_num [cexRecommendation, pyRound2, roundHalfEven]

/-- C4: grading expiry bounds ledger staleness — a pending recommendation
whose event started more than 48 hours ago and whose external_id is absent
from the completed-events batch becomes void with actual_return 0 and the
outcome string "expired - no result found"; when 48 hours have not yet
elapsed the row is left pending, unchanged. -/
theorem grading_expiry_bounds_staleness :
    (∀ (completed_events : List (String × List ScoreEntry)) (events : List Event)
        (now : ℤ) (r : Recommendation) (e : Event) (t : ℤ),
      r.status = "pending" →
      events.find? (fun ev => ev.id == r.event_id) = some e →
      e.start_time = some t →
      lookupCompleted completed_events e.external_id = none →
      now - t > HOURS48 →
      gradeOne completed_events events now r =
        { r with status := "void"
                 actual_outcome := some "expired - no result found"
                 actual_return := some 0
                 updated_at := now }) ∧
    (∀ (completed_events : List (String × List ScoreEntry)) (events : List Event)
        (now : ℤ) (r : Recommendation) (e : Event) (t : ℤ),
      r.status = "pending" →
      events.find? (fun ev => ev.id == r.event_id) = some e →
      e.start_time = some t →
      lookupCompleted completed_events e.external_id = none →
      ¬ now - t > HOURS48 →
      gradeOne completed_events events now r = r) := by
  constructor
  · intro cev evs now r e t hpend hfind hstart hlook hexp
    have hfut : start_time_future e.start_time now = false := by
      rw [hstart]
      simp only [start_time_future, decide_eq_false_iff_not, not_lt]
      simp only [HOURS48] at hexp
      omega
    have hexp2 : start_time_expired e.start_time now = true := by
      rw [hstart]
      simp only [start_time_expired]
      exact decide_eq_true hexp
    simp [gradeOne, hfind, hfut, hlook, hexp2]
  · intro cev evs now r e t hpend hfind hstart hlook hexp
    by_cases hf : t > now
    · have hfut : start_time_future e.start_time now = true := by
        rw [hstart]
        simp only [start_time_future]
        exact decide_eq_true hf
      simp [gradeOne, hfind, hfut]
    · have hfut : start_time_future e.start_time now = false := by
        rw [hstart]
        simp only [start_time_future, decide_eq_false_iff_not, not_lt]
        omega
      have hexp2 : start_time_expired e.start_time now = false := by
        rw [hstart]
        simp only [start_time_expired, decide_eq_false_iff_not]
        exact hexp
      simp [gradeOne, hfind, hfut, hlook, hexp2]

/-- Witness for the expiry theorem: event started at time 0; voided when
graded at 50 hours (180000 s), left pending when graded at 1 hour. -/
theorem grading_expiry_bounds_staleness_witness :
    gradeOne [] [cexEvent] 180000 wonRecommendation =
      { wonRecommendation with
          status := "void"
          actual_outcome := some "expired - no result found"
          actual_return := some 0
          updated_at := 180000 } ∧
    gradeOne [] [cexEvent] 3600 wonRecommendation = wonRecommendation :=
  ⟨grading_expiry_bounds_staleness.1 [] [cexEvent] 180000 wonRecommendation
      cexEvent 0 rfl rfl rfl rfl (by norm_num [HOURS48]),
   grading_expiry_bounds_staleness.2 [] [cexEvent] 3600 wonRecommendation
      cexEvent 0 rfl rfl rfl rfl (by norm_num [HOURS48])⟩

/-- C1 (the code's actual behavior, refuting the claimed idempotence): with
the selector yielding (event 1, "home") both times, one run of
record_top3_bets leaves one pending row for the pair — the unconditional
save inside Top3Selector.get_top3_bets inserts it, after which the 12-hour
dedup check always fires and record_top3_bets inserts nothing itself — but
a second run 6 hours later appends a second pending row for the same pair,
because the selector's internal save performs no dedup check at all. -/
theorem record_twice_within_12h_two_rows :
    countPendingFor 1 "home" (record_top3_bets [c1Candidate] 0 []) = 1 ∧
    countPendingFor 1 "home"
      (record_top3_bets [c1Candidate] 21600 (record_top3_bets [c1Candidate] 0 [])) = 2 := by
  constructor
  · decide
  · decide

end BettingAI
